import Mathlib

/-!
Verification of the MET-museum artwork browser (`streamlit_app.py`).

The program is a thin synchronous client over two HTTP endpoints plus a
rendering pass.  We embed it shallowly:

* an HTTP interaction is a value of `HttpResult β`: either a response with a
  status code and an already-parsed body, or an exception raised anywhere in
  the `try` block (transport error, timeout, or JSON parse failure — in the
  Python source `response.json()` is called inside the same `try`);
* the JSON bodies are records of `Option String` / `Option (List Int)`
  fields, mirroring Python's `dict.get` returning `None` for absent keys;
* side effects (`st.error`, `st.warning`, `st.info`, `st.image`,
  `st.write`, `st.progress`, `time.sleep`, and the network calls
  themselves) become events in an explicit trace, so that "emits exactly one
  error notice" or "performs zero detail fetches" are statements about the
  trace of the embedded function.
-/

namespace Met

/-- Outcome of one `requests.get` + parse attempt: a response carrying the
HTTP status code and the parsed body, or an exception with its message. -/
inductive HttpResult (β : Type) where
  | response (status : Nat) (body : β)
  | exception (msg : String)
deriving DecidableEq, Repr

/-- Parsed body of the search endpoint: the `objectIDs` field may be absent
from the JSON (`data.get('objectIDs', [])` in the source). -/
structure SearchJson where
  objectIDs : Option (List Int)
deriving DecidableEq, Repr

/-- Parsed body of the per-object detail endpoint.  Each field mirrors a key
the program reads with `dict.get`; an absent key is `none`. -/
structure Artwork where
  primaryImage : Option String
  title : Option String
  artistDisplayName : Option String
  objectDate : Option String
  medium : Option String
  dimensions : Option String
  department : Option String
  culture : Option String
  classification : Option String
  creditLine : Option String
deriving DecidableEq, Repr

/-- Python truthiness of an optional string field: present and non-empty. -/
def truthy (o : Option String) : Bool :=
  !(o.getD "").isEmpty

/-- Default `limit` argument of `search_met_artworks` in the source. -/
def DEFAULT_LIMIT : Nat := 20

/-- Embedding of `search_met_artworks(query, limit=20)`.  The network
interaction is the `resp` argument; the function returns the identifier list
together with the list of `st.error` notices it emitted.  On status 200 it
takes the first `limit` entries of `objectIDs` (absent key defaults to the
empty list); on any other status it emits one error notice and returns `[]`;
on an exception it emits one error notice and returns `[]`. -/
def search_met_artworks (query : String) (limit : Nat)
    (resp : HttpResult SearchJson) : List Int × List String :=
  match resp with
  | .response status data =>
      if status = 200 then
        ((data.objectIDs.getD []).take limit, [])
      else
        ([], ["API请求失败: " ++ toString status])
  | .exception e => ([], ["搜索时发生错误: " ++ e])

/-- Embedding of `get_artwork_details(object_id)`.  Returns the record (or
`none`) together with the `st.error` notices emitted: status 200 yields the
parsed record with no notice, any other status yields `None` with no notice,
and an exception yields `None` plus one error notice. -/
def get_artwork_details (resp : HttpResult Artwork) :
    Option Artwork × List String :=
  match resp with
  | .response status a =>
      if status = 200 then (some a, []) else (none, [])
  | .exception e => (none, ["获取艺术品详情时发生错误: " ++ e])

/-- A record with every field absent, used as a concrete test body. -/
def blankArtwork : Artwork :=
  ⟨none, none, none, none, none, none, none, none, none, none⟩

/-- One observable action of a render pass: a UI write (`st.*`), a network
call, or a `time.sleep`.  `render a` marks the start of the rendering block
for one artwork record. -/
inductive Event where
  | subheader (s : String)
  | spinner (s : String)
  | searchCall (q : String)
  | detailCall (id : Int)
  | errorNote (s : String)
  | warn (s : String)
  | info (s : String)
  | statusText (n : Nat)
  | progress (num den : Nat)
  | sleepTenths (n : Nat)
  | render (a : Artwork)
  | image (url caption : String)
  | writeLine (s : String)
  | separator
deriving DecidableEq, Repr

/-- The external world one render pass interacts with: the outcome of the
search request and, per identifier, the outcome of the detail request. -/
structure Env where
  searchResp : HttpResult SearchJson
  detailResp : Int → HttpResult Artwork

/-- The filter applied to each fetched record in the loop of
`display_artworks`: keep it only when the fetch succeeded and
`artwork.get('primaryImage')` is truthy. -/
def keepArtwork : Option Artwork → Option Artwork
  | some a => if truthy a.primaryImage then some a else none
  | none => none

/-- One iteration of the fetch loop in `display_artworks`, at loop index `i`
over identifier `id`: status text, the detail fetch (with any error notice it
emits), the progress update to `(i+1)/6`, and the fixed 0.1-second sleep.
Returns the iteration's events and the record kept, if any. -/
def fetch_step (env : Env) (i : Nat) (id : Int) : List Event × Option Artwork :=
  let r := get_artwork_details (env.detailResp id)
  ([Event.statusText (i + 1), Event.detailCall id]
     ++ r.2.map Event.errorNote
     ++ [Event.progress (i + 1) 6, Event.sleepTenths 1],
   keepArtwork r.1)

/-- The fetch loop of `display_artworks`, over the enumerated identifier
list, accumulating the kept records in order. -/
def fetch_loop (env : Env) : List (Nat × Int) → List Event × List Artwork
  | [] => ([], [])
  | p :: rest =>
      let s := fetch_step env p.1 p.2
      let r := fetch_loop env rest
      (s.1 ++ r.1, s.2.toList ++ r.2)

/-- One conditional `st.write` line of the expander: emitted only when the
optional field is truthy. -/
def optLine (o : Option String) (label : String) : List Event :=
  if truthy o then [Event.writeLine (label ++ o.getD "")] else []

/-- The `More Details` expander body: one line per truthy optional field. -/
def detail_lines (a : Artwork) : List Event :=
  optLine a.medium "**Medium:** "
    ++ optLine a.dimensions "**Dimensions:** "
    ++ optLine a.department "**Department:** "
    ++ optLine a.culture "**Culture:** "
    ++ optLine a.classification "**Classification:** "
    ++ optLine a.creditLine "**Credit Line:** "

/-- Rendering block for one artwork: the image (or the `Image not available`
fallback when `primaryImage` is not truthy), the three metadata lines, and
the expander lines. -/
def render_artwork (a : Artwork) : List Event :=
  [Event.render a]
    ++ (if truthy a.primaryImage then
          [Event.image (a.primaryImage.getD "") (a.title.getD "Untitled")]
        else
          [Event.info "🖼️ Image not available"])
    ++ [Event.writeLine ("**Title:** " ++ a.title.getD "Unknown Title"),
        Event.writeLine ("**Artist:** " ++ a.artistDisplayName.getD "Unknown Artist"),
        Event.writeLine ("**Year:** " ++ a.objectDate.getD "Unknown Date")]
    ++ detail_lines a

/-- Rendering of the whole kept list, with a separator after every record
except the last. -/
def render_all : List Artwork → List Event
  | [] => []
  | [a] => render_artwork a
  | a :: b :: rest =>
      render_artwork a ++ [Event.separator] ++ render_all (b :: rest)

/-- The identifier list produced by the search call of one render pass
(`artwork_ids` in the source, using the default limit 20). -/
def foundIds (env : Env) (search_term : String) : List Int :=
  (search_met_artworks search_term DEFAULT_LIMIT env.searchResp).1

/-- The events of the search phase of `display_artworks`: subheader, the
spinner, the search call, and any error notices the search emitted. -/
def searchPhase (env : Env) (search_term : String) : List Event :=
  [Event.subheader ("Search results for: \x27" ++ search_term ++ "\x27"),
   Event.spinner "Searching artworks...",
   Event.searchCall search_term]
    ++ (search_met_artworks search_term DEFAULT_LIMIT env.searchResp).2.map
        Event.errorNote

/-- Embedding of `display_artworks(search_term)`: the full event trace of
one render pass against the world `env`.  Empty search result ⇒ the
`No artworks found` warning; otherwise the match count, the fetch loop over
the first six identifiers, and either the `No artworks with images found.`
warning or the rendering of the kept records. -/
def display_artworks (env : Env) (search_term : String) : List Event :=
  searchPhase env search_term
    ++ (if foundIds env search_term = [] then
          [Event.warn "No artworks found. Please try a different search term."]
        else
          [Event.info ("Found " ++ toString (foundIds env search_term).length
              ++ " artworks"),
           Event.progress 0 6]
            ++ (fetch_loop env ((foundIds env search_term).take 6).enum).1
            ++ (if (fetch_loop env ((foundIds env search_term).take 6).enum).2 = [] then
                  [Event.warn "No artworks with images found."]
                else
                  render_all (fetch_loop env ((foundIds env search_term).take 6).enum).2))

/-- Projection selecting detail-fetch events. -/
def detailId : Event → Option Int
  | .detailCall id => some id
  | _ => none

/-- The identifiers of all detail fetches performed in a trace, in order. -/
def detailCallIds (t : List Event) : List Int := t.filterMap detailId

/-- Projection selecting record-render events. -/
def renderedRecord : Event → Option Artwork
  | .render a => some a
  | _ => none

/-- The records rendered in a trace, in order: the rendered set. -/
def renderedSet (t : List Event) : List Artwork := t.filterMap renderedRecord

/-- The widget state `main` reads on one render pass: the session-state
search term (absent if the key is not set), the free-text field, and the
three buttons (submit, and the two presets). -/
structure UIState where
  session_search_term : Option String
  custom_search : String
  custom_search_btn : Bool
  flower_btn : Bool
  chinese_bird_btn : Bool
deriving DecidableEq, Repr

/-- Embedding of the search-term selection in `main` (lines 59–89 of the
source): each pressed preset button first stores its term in session state
(the second button overwrites the first); then, if a session term is
present, it is selected and deleted; otherwise a truthy free-text field is
selected whether or not the submit button was pressed.  Returns the selected
term and the session-state value left for the next pass. -/
def select_search_term (s : UIState) : Option String × Option String :=
  let sess :=
    if s.chinese_bird_btn then some "Chinese figure with bird"
    else if s.flower_btn then some "flower"
    else s.session_search_term
  match sess with
  | some t => (some t, none)
  | none =>
      if s.custom_search_btn && !s.custom_search.isEmpty then
        (some s.custom_search, none)
      else if !s.custom_search.isEmpty then
        (some s.custom_search, none)
      else (none, none)

/-- The static trace of `display_example_artworks`: the informational notice
and the about text; no search or fetch happens here. -/
def display_example_artworks : List Event :=
  [Event.info "👆 Click one of the search buttons above or enter your own search term to explore artworks!",
   Event.writeLine "About this App"]

/-- Embedding of one pass of `main` after the widgets are read: select the
search term, then either run `display_artworks` on it or show the static
example content.  Returns the trace and the session-state value left for the
next pass. -/
def main_pass (env : Env) (s : UIState) : List Event × Option String :=
  match select_search_term s with
  | (some t, sess) => (display_artworks env t, sess)
  | (none, sess) => (display_example_artworks, sess)

/-- Modelled from the spec: the fixed time-to-live of the
`@st.cache_data(ttl=3600)` decorator, which is framework code not present in
this repository. -/
def TTL_SECONDS : Nat := 3600

/-- Modelled from the spec: the per-function memoization cache of
`st.cache_data` — a store of (key, value, time-stored) entries. -/
structure Cache (κ α : Type) where
  entries : List (κ × α × Nat)

/-- Modelled from the spec: cache lookup at time `now` — an entry is served
only while younger than the time-to-live. -/
def cacheLookup [DecidableEq κ] (c : Cache κ α) (k : κ) (now : Nat) :
    Option α :=
  match c.entries.find?
      (fun e => decide (e.1 = k) && decide (now < e.2.2 + TTL_SECONDS)) with
  | some e => some e.2.1
  | none => none

/-- Modelled from the spec: one call to a memoized function at time `now`.
A fresh cached value is returned as-is; otherwise the underlying computation
runs (a network round trip) and its result is stored.  The Boolean reports
whether the network call ran. -/
def cachedCall [DecidableEq κ] (c : Cache κ α) (k : κ) (now : Nat)
    (compute : α) : α × Cache κ α × Bool :=
  match cacheLookup c k now with
  | some v => (v, c, false)
  | none => (compute, ⟨(k, compute, now) :: c.entries⟩, true)

/-- Two successive memoized calls with the same key, at times `t0` and `t1`:
for each call, its result and whether it hit the network. -/
def twoCalls [DecidableEq κ] (c : Cache κ α) (k : κ) (t0 t1 : Nat)
    (compute : α) : (α × Bool) × (α × Bool) :=
  let r1 := cachedCall c k t0 compute
  let r2 := cachedCall r1.2.1 k t1 compute
  ((r1.1, r1.2.2), (r2.1, r2.2.2))

/-- The memoized `search_met_artworks` called twice with the same
(query, limit) key: the cached value is the returned identifier list. -/
def searchTwice (c : Cache (String × Nat) (List Int)) (query : String)
    (limit : Nat) (resp : HttpResult SearchJson) (t0 t1 : Nat) :
    (List Int × Bool) × (List Int × Bool) :=
  twoCalls c (query, limit) t0 t1 (search_met_artworks query limit resp).1

/-- The memoized `get_artwork_details` called twice for the same identifier:
the cached value is the returned record-or-absent. -/
def detailTwice (d : Cache Int (Option Artwork)) (id : Int)
    (dresp : HttpResult Artwork) (t0 t1 : Nat) :
    (Option Artwork × Bool) × (Option Artwork × Bool) :=
  twoCalls d id t0 t1 (get_artwork_details dresp).1

/-- Concrete world for the counterexample to the literal reading of the
drop-silently invariant: the search finds identifier 7 and its detail fetch
raises an exception. -/
def envC1 : Env :=
  ⟨.response 200 ⟨some [7]⟩, fun _ => .exception "boom"⟩

/-- Concrete world with two identifiers whose detail fetches both succeed
but return records without images. -/
def envTwoBlank : Env :=
  ⟨.response 200 ⟨some [1, 2]⟩, fun _ => .response 200 blankArtwork⟩

/-- Concrete world whose search result is empty. -/
def envEmpty : Env :=
  ⟨.response 200 ⟨some []⟩, fun _ => .exception "unused"⟩

theorem keepArtwork_eq_some (o : Option Artwork) (a : Artwork) :
    keepArtwork o = some a ↔ o = some a ∧ truthy a.primaryImage = true := by
  cases o with
  | none => simp [keepArtwork]
  | some b =>
      cases hb : truthy b.primaryImage with
      | true =>
          simp only [keepArtwork, hb, if_true, Option.some.injEq]
          constructor
          · intro h2
            exact ⟨h2, h2 ▸ hb⟩
          · exact fun h2 => h2.1
      | false =>
          simp only [keepArtwork, hb, if_false]
          constructor
          · intro h2
            cases h2
          · rintro ⟨h2, h3⟩
            rw [Option.some.injEq] at h2
            subst h2
            rw [hb] at h3
            cases h3

theorem fetch_loop_arts (env : Env) (l : List (Nat × Int)) :
    (fetch_loop env l).2
      = l.filterMap
          (fun p => keepArtwork (get_artwork_details (env.detailResp p.2)).1) := by
  induction l with
  | nil => rfl
  | cons p rest ih =>
      simp only [fetch_loop, fetch_step, List.filterMap_cons]
      cases h : keepArtwork (get_artwork_details (env.detailResp p.2)).1 <;>
        simp [h, ih]

theorem fetch_loop_events (env : Env) (l : List (Nat × Int)) :
    (fetch_loop env l).1 = l.flatMap (fun p => (fetch_step env p.1 p.2).1) := by
  induction l with
  | nil => rfl
  | cons p rest ih => simp [fetch_loop, List.flatMap_cons, ih]

theorem detailCallIds_append (t u : List Event) :
    detailCallIds (t ++ u) = detailCallIds t ++ detailCallIds u :=
  List.filterMap_append t u detailId

theorem detailCallIds_map_errorNote (l : List String) :
    detailCallIds (l.map Event.errorNote) = [] := by
  rw [detailCallIds, List.filterMap_map]
  exact List.filterMap_eq_nil_iff.mpr (fun a _ => rfl)

theorem filterMap_detailId_errorNote (l : List String) :
    List.filterMap (detailId ∘ Event.errorNote) l = [] :=
  List.filterMap_eq_nil_iff.mpr (fun a _ => rfl)

theorem filterMap_renderedRecord_errorNote (l : List String) :
    List.filterMap (renderedRecord ∘ Event.errorNote) l = [] :=
  List.filterMap_eq_nil_iff.mpr (fun a _ => rfl)

theorem detailCallIds_fetch_step (env : Env) (i : Nat) (id : Int) :
    detailCallIds (fetch_step env i id).1 = [id] := by
  simp only [fetch_step, detailCallIds, List.filterMap_append,
    List.filterMap_cons, List.filterMap_map, detailId]
  rw [filterMap_detailId_errorNote]
  rfl

theorem detailCallIds_fetch_loop (env : Env) (l : List (Nat × Int)) :
    detailCallIds (fetch_loop env l).1 = l.map Prod.snd := by
  induction l with
  | nil => rfl
  | cons p rest ih =>
      have hsplit : (fetch_loop env (p :: rest)).1
          = (fetch_step env p.1 p.2).1 ++ (fetch_loop env rest).1 := rfl
      rw [hsplit, detailCallIds_append, detailCallIds_fetch_step, ih,
        List.map_cons]
      rfl

theorem renderedSet_append (t u : List Event) :
    renderedSet (t ++ u) = renderedSet t ++ renderedSet u :=
  List.filterMap_append t u renderedRecord

theorem renderedSet_map_errorNote (l : List String) :
    renderedSet (l.map Event.errorNote) = [] := by
  rw [renderedSet, List.filterMap_map]
  exact List.filterMap_eq_nil_iff.mpr (fun a _ => rfl)

theorem renderedSet_fetch_step (env : Env) (i : Nat) (id : Int) :
    renderedSet (fetch_step env i id).1 = [] := by
  simp only [fetch_step, renderedSet, List.filterMap_append,
    List.filterMap_cons, List.filterMap_map, renderedRecord]
  rw [filterMap_renderedRecord_errorNote]
  rfl

theorem renderedSet_fetch_loop (env : Env) (l : List (Nat × Int)) :
    renderedSet (fetch_loop env l).1 = [] := by
  induction l with
  | nil => rfl
  | cons p rest ih =>
      have hsplit : (fetch_loop env (p :: rest)).1
          = (fetch_step env p.1 p.2).1 ++ (fetch_loop env rest).1 := rfl
      rw [hsplit, renderedSet_append, renderedSet_fetch_step, ih]
      rfl

theorem renderedSet_optLine (o : Option String) (label : String) :
    renderedSet (optLine o label) = [] := by
  rw [optLine]
  split <;> rfl

theorem renderedSet_detail_lines (a : Artwork) :
    renderedSet (detail_lines a) = [] := by
  rw [detail_lines, renderedSet_append, renderedSet_append,
    renderedSet_append, renderedSet_append, renderedSet_append]
  simp [renderedSet_optLine]

theorem renderedSet_render_artwork (a : Artwork) :
    renderedSet (render_artwork a) = [a] := by
  rw [render_artwork, renderedSet_append, renderedSet_append,
    renderedSet_append, renderedSet_detail_lines]
  have hif : renderedSet
      (if truthy a.primaryImage then
        [Event.image (a.primaryImage.getD "") (a.title.getD "Untitled")]
      else [Event.info "🖼️ Image not available"]) = [] := by
    split <;> rfl
  rw [hif]
  rfl

theorem renderedSet_render_all (l : List Artwork) :
    renderedSet (render_all l) = l := by
  induction l with
  | nil => rfl
  | cons a rest ih =>
      cases rest with
      | nil => simpa using renderedSet_render_artwork a
      | cons b rest2 =>
          rw [render_all, renderedSet_append, renderedSet_append,
            renderedSet_render_artwork, ih]
          rfl

theorem detailCallIds_optLine (o : Option String) (label : String) :
    detailCallIds (optLine o label) = [] := by
  rw [optLine]
  split <;> rfl

theorem detailCallIds_detail_lines (a : Artwork) :
    detailCallIds (detail_lines a) = [] := by
  rw [detail_lines, detailCallIds_append, detailCallIds_append,
    detailCallIds_append, detailCallIds_append, detailCallIds_append]
  simp [detailCallIds_optLine]

theorem detailCallIds_render_artwork (a : Artwork) :
    detailCallIds (render_artwork a) = [] := by
  rw [render_artwork, detailCallIds_append, detailCallIds_append,
    detailCallIds_append, detailCallIds_detail_lines]
  have hif : detailCallIds
      (if truthy a.primaryImage then
        [Event.image (a.primaryImage.getD "") (a.title.getD "Untitled")]
      else [Event.info "🖼️ Image not available"]) = [] := by
    split <;> rfl
  rw [hif]
  rfl

theorem detailCallIds_render_all (l : List Artwork) :
    detailCallIds (render_all l) = [] := by
  induction l with
  | nil => rfl
  | cons a rest ih =>
      cases rest with
      | nil => simpa using detailCallIds_render_artwork a
      | cons b rest2 =>
          rw [render_all, detailCallIds_append, detailCallIds_append,
            detailCallIds_render_artwork, ih]
          rfl

theorem detailCallIds_searchPhase (env : Env) (term : String) :
    detailCallIds (searchPhase env term) = [] := by
  rw [searchPhase, detailCallIds_append, detailCallIds_map_errorNote]
  rfl

theorem renderedSet_searchPhase (env : Env) (term : String) :
    renderedSet (searchPhase env term) = [] := by
  rw [searchPhase, renderedSet_append, renderedSet_map_errorNote]
  rfl

theorem filterMap_enum_snd {β : Type} (g : Int → Option β) (l : List Int) :
    l.enum.filterMap (fun p => g p.2) = l.filterMap g := by
  have h := List.filterMap_map Prod.snd g l.enum
  rw [List.enum_map_snd] at h
  exact h.symm

theorem fetch_loop_arts_enum (env : Env) (l : List Int) :
    (fetch_loop env l.enum).2
      = l.filterMap (fun id => keepArtwork (get_artwork_details (env.detailResp id)).1) := by
  rw [fetch_loop_arts]
  exact filterMap_enum_snd
    (fun id => keepArtwork (get_artwork_details (env.detailResp id)).1) l

theorem renderedSet_display (env : Env) (term : String) :
    renderedSet (display_artworks env term)
      = ((foundIds env term).take 6).filterMap
          (fun id => keepArtwork (get_artwork_details (env.detailResp id)).1) := by
  rw [display_artworks, renderedSet_append, renderedSet_searchPhase]
  by_cases h : foundIds env term = []
  · rw [if_pos h, h]
    rfl
  · rw [if_neg h, renderedSet_append, renderedSet_append,
      renderedSet_fetch_loop, ← fetch_loop_arts_enum]
    by_cases h2 : (fetch_loop env ((foundIds env term).take 6).enum).2 = []
    · rw [if_pos h2, h2]
      rfl
    · rw [if_neg h2, renderedSet_render_all]
      rfl

theorem detailCallIds_display (env : Env) (term : String) :
    detailCallIds (display_artworks env term)
      = if foundIds env term = [] then [] else (foundIds env term).take 6 := by
  rw [display_artworks, detailCallIds_append, detailCallIds_searchPhase]
  by_cases h : foundIds env term = []
  · rw [if_pos h, if_pos h]
    rfl
  · rw [if_neg h, if_neg h, detailCallIds_append, detailCallIds_append,
      detailCallIds_fetch_loop, List.enum_map_snd]
    have htail : detailCallIds
        (if (fetch_loop env ((foundIds env term).take 6).enum).2 = [] then
          [Event.warn "No artworks with images found."]
        else render_all (fetch_loop env ((foundIds env term).take 6).enum).2) = [] := by
      split
      · rfl
      · exact detailCallIds_render_all _
    rw [htail]
    simp only [detailCallIds, List.filterMap_cons, List.filterMap_nil,
      detailId, List.append_nil, List.nil_append]

theorem block_sublist (env : Env) (i : Nat) (id : Int) :
    List.Sublist
      [Event.detailCall id, Event.progress (i + 1) 6, Event.sleepTenths 1]
      (fetch_step env i id).1 := by
  simp only [fetch_step, List.cons_append, List.nil_append]
  exact List.Sublist.cons _
    (List.Sublist.cons₂ _ (List.sublist_append_right _ _))

theorem sublist_flatMap {α β : Type} (f g : α → List β)
    (h : ∀ a, List.Sublist (f a) (g a)) :
    ∀ l : List α, List.Sublist (l.flatMap f) (l.flatMap g)
  | [] => List.Sublist.slnil
  | a :: l => by
      rw [List.flatMap_cons, List.flatMap_cons]
      exact List.Sublist.append (h a) (sublist_flatMap f g h l)

theorem fetch_pattern_sublist (env : Env) (l : List (Nat × Int)) :
    List.Sublist
      (l.flatMap (fun p => [Event.detailCall p.2, Event.progress (p.1 + 1) 6,
        Event.sleepTenths 1]))
      (fetch_loop env l).1 := by
  rw [fetch_loop_events]
  exact sublist_flatMap _ _ (fun p => block_sublist env p.1 p.2) l

theorem found_info_ne (n : Nat) :
    ("Found " ++ toString n ++ " artworks") ≠ "🖼️ Image not available" := by
  intro h
  have h2 : ("Found " ++ toString n ++ " artworks").data.head?
      = ("🖼️ Image not available" : String).data.head? := by rw [h]
  rw [String.data_append, String.data_append] at h2
  have h3 : ((("Found " : String).data ++ (toString n).data)
      ++ (" artworks" : String).data).head? = some 'F' := rfl
  rw [h3] at h2
  exact absurd h2 (by decide)

theorem info_not_mem_fetch_step (env : Env) (i : Nat) (id : Int) (s : String) :
    Event.info s ∉ (fetch_step env i id).1 := by
  simp [fetch_step]

theorem info_not_mem_fetch_loop (env : Env) (l : List (Nat × Int)) (s : String) :
    Event.info s ∉ (fetch_loop env l).1 := by
  induction l with
  | nil => simp [fetch_loop]
  | cons p rest ih =>
      have hsplit : (fetch_loop env (p :: rest)).1
          = (fetch_step env p.1 p.2).1 ++ (fetch_loop env rest).1 := rfl
      rw [hsplit]
      intro hm
      rcases List.mem_append.mp hm with hm | hm
      · exact info_not_mem_fetch_step env p.1 p.2 s hm
      · exact ih hm

theorem fallback_not_mem_optLine (o : Option String) (label : String) :
    Event.info "🖼️ Image not available" ∉ optLine o label := by
  rw [optLine]
  split <;> simp

theorem fallback_not_mem_detail_lines (a : Artwork) :
    Event.info "🖼️ Image not available" ∉ detail_lines a := by
  rw [detail_lines]
  intro hm
  rcases List.mem_append.mp hm with hm | hm
  rcases List.mem_append.mp hm with hm | hm
  rcases List.mem_append.mp hm with hm | hm
  rcases List.mem_append.mp hm with hm | hm
  rcases List.mem_append.mp hm with hm | hm
  all_goals exact fallback_not_mem_optLine _ _ hm

theorem fallback_not_mem_render_artwork (a : Artwork)
    (h : truthy a.primaryImage = true) :
    Event.info "🖼️ Image not available" ∉ render_artwork a := by
  rw [render_artwork]
  intro hm
  rcases List.mem_append.mp hm with hm | hm
  · rcases List.mem_append.mp hm with hm | hm
    · rcases List.mem_append.mp hm with hm | hm
      · simp at hm
      · rw [if_pos h] at hm
        simp at hm
    · simp at hm
  · exact fallback_not_mem_detail_lines a hm

theorem fallback_not_mem_render_all :
    ∀ l : List Artwork, (∀ a ∈ l, truthy a.primaryImage = true) →
      Event.info "🖼️ Image not available" ∉ render_all l
  | [], _ => by simp [render_all]
  | [a], h => fallback_not_mem_render_artwork a (h a (by simp))
  | a :: b :: rest, h => by
      rw [render_all]
      intro hm
      rcases List.mem_append.mp hm with hm | hm
      · rcases List.mem_append.mp hm with hm | hm
        · exact fallback_not_mem_render_artwork a (h a (by simp)) hm
        · simp at hm
      · exact fallback_not_mem_render_all (b :: rest)
          (fun x hx => h x (List.mem_cons_of_mem a hx)) hm

theorem mem_fetch_arts_truthy (env : Env) (l : List (Nat × Int)) (a : Artwork)
    (h : a ∈ (fetch_loop env l).2) : truthy a.primaryImage = true := by
  rw [fetch_loop_arts] at h
  rcases List.mem_filterMap.mp h with ⟨p, _, hp⟩
  exact ((keepArtwork_eq_some _ _).mp hp).2

theorem twoCalls_spec {κ α : Type} [DecidableEq κ] (c : Cache κ α) (k : κ)
    (t0 t1 : Nat) (v : α) (h1 : t1 < t0 + TTL_SECONDS) :
    ((twoCalls c k t0 t1 v).1.2 && (twoCalls c k t0 t1 v).2.2) = false
    ∧ ((twoCalls c k t0 t1 v).1.2 = true →
        (twoCalls c k t0 t1 v).2 = ((twoCalls c k t0 t1 v).1.1, false)) := by
  cases h : cacheLookup c k t0 with
  | some w =>
      have hA : twoCalls c k t0 t1 v
          = ((w, false),
             ((cachedCall c k t1 v).1, (cachedCall c k t1 v).2.2)) := by
        simp [twoCalls, cachedCall, h]
      rw [hA]
      refine ⟨rfl, ?_⟩
      intro hfalse
      cases hfalse
  | none =>
      have hk : (decide (k = k) && decide (t1 < t0 + TTL_SECONDS)) = true := by
        simp [h1]
      have hfresh : cacheLookup ⟨(k, v, t0) :: c.entries⟩ k t1 = some v := by
        rw [cacheLookup, List.find?_cons, hk]
      have hA : twoCalls c k t0 t1 v = ((v, true), (v, false)) := by
        simp [twoCalls, cachedCall, h, hfresh]
      rw [hA]
      exact ⟨rfl, fun _ => rfl⟩

/-- Claim C2: on an HTTP 200 response, for every query and limit, the search
returns the first `limit` entries of the `objectIDs` field, hence a result of
length at most `limit`; an absent `objectIDs` field yields the empty list. -/
theorem search_success_takes_limit (query : String) (limit : Nat)
    (j : SearchJson) :
    (search_met_artworks query limit (.response 200 j)).1
        = (j.objectIDs.getD []).take limit
    ∧ (search_met_artworks query limit (.response 200 j)).1.length ≤ limit
    ∧ (search_met_artworks query limit
        (.response 200 ⟨none⟩)).1 = [] := by
  refine ⟨rfl, ?_, by simp [search_met_artworks]⟩
  have h : (search_met_artworks query limit (.response 200 j)).1
      = (j.objectIDs.getD []).take limit := rfl
  rw [h, List.length_take]
  omega

/-- Claim C3: on a non-200 status, the search emits exactly one error notice
and returns the empty sequence. -/
theorem search_non200_one_error (query : String) (limit : Nat)
    (status : Nat) (j : SearchJson) (h : status ≠ 200) :
    search_met_artworks query limit (.response status j)
      = ([], ["API请求失败: " ++ toString status]) := by
  simp [search_met_artworks, h]

/-- Witness for `search_non200_one_error` at status 404. -/
theorem search_non200_one_error_witness :
    search_met_artworks "flower" 20 (.response 404 ⟨none⟩)
      = ([], ["API请求失败: " ++ toString 404]) :=
  search_non200_one_error "flower" 20 404 ⟨none⟩ (by decide)

/-- Claim C4: the detail fetch returns absent on a non-200 status without a
notice, and returns absent with exactly one error notice on an exception. -/
theorem detail_fetch_absent_cases (status : Nat) (a : Artwork) (e : String)
    (h : status ≠ 200) :
    get_artwork_details (.response status a) = (none, [])
    ∧ get_artwork_details (.exception e)
        = (none, ["获取艺术品详情时发生错误: " ++ e]) := by
  constructor
  · simp [get_artwork_details, h]
  · rfl

/-- Witness for `detail_fetch_absent_cases` at status 500. -/
theorem detail_fetch_absent_cases_witness :
    get_artwork_details (.response 500 blankArtwork) = (none, [])
    ∧ get_artwork_details (.exception "timeout")
        = (none, ["获取艺术品详情时发生错误: " ++ "timeout"]) :=
  detail_fetch_absent_cases 500 blankArtwork "timeout" (by decide)

/-- Claim C1 (amended): a fetched record is in the rendered set iff its
detail fetch returned it with a truthy `primaryImage`; the non-200 absent
path emits no notice, while the exception absent path emits exactly one. -/
theorem rendered_iff_truthy_image (env : Env) (term : String) (a : Artwork) :
    (a ∈ renderedSet (display_artworks env term) ↔
      ∃ id ∈ (foundIds env term).take 6,
        (get_artwork_details (env.detailResp id)).1 = some a
          ∧ truthy a.primaryImage = true)
    ∧ (∀ status rec, (get_artwork_details (.response status rec)).2 = [])
    ∧ (∀ e, (get_artwork_details (.exception e)).2
        = ["获取艺术品详情时发生错误: " ++ e]) := by
  refine ⟨?_, ?_, fun e => rfl⟩
  · rw [renderedSet_display, List.mem_filterMap]
    constructor
    · rintro ⟨id, hid, hk⟩
      exact ⟨id, hid, (keepArtwork_eq_some _ _).mp hk⟩
    · rintro ⟨id, hid, h1, h2⟩
      exact ⟨id, hid, (keepArtwork_eq_some _ _).mpr ⟨h1, h2⟩⟩
  · intro status rec
    by_cases h : status = 200 <;> simp [get_artwork_details, h]

/-- Witness for `rendered_iff_truthy_image` at a concrete world. -/
theorem rendered_iff_truthy_image_witness :
    (blankArtwork ∈ renderedSet (display_artworks envTwoBlank "cat") ↔
      ∃ id ∈ (foundIds envTwoBlank "cat").take 6,
        (get_artwork_details (envTwoBlank.detailResp id)).1 = some blankArtwork
          ∧ truthy blankArtwork.primaryImage = true)
    ∧ (∀ status rec, (get_artwork_details (.response status rec)).2 = [])
    ∧ (∀ e, (get_artwork_details (.exception e)).2
        = ["获取艺术品详情时发生错误: " ++ e]) :=
  rendered_iff_truthy_image envTwoBlank "cat" blankArtwork

/-- Counterexample to claim C1 as stated: in `envC1` the detail fetch of
identifier 7 raises an exception, so it returns absent and the record is
dropped from the rendered set — yet an error notice for it does appear in
the trace, so the drop is not free of any shown error. -/
theorem dropped_fetch_shows_error :
    (get_artwork_details (envC1.detailResp 7)).1 = none
    ∧ renderedSet (display_artworks envC1 "cat") = []
    ∧ Event.errorNote ("获取艺术品详情时发生错误: " ++ "boom")
        ∈ display_artworks envC1 "cat" := by
  refine ⟨rfl, by decide, by decide⟩

/-- Claim C5: an empty search result produces the `No artworks found`
warning and zero detail fetches. -/
theorem empty_search_no_fetches (env : Env) (term : String)
    (h : foundIds env term = []) :
    Event.warn "No artworks found. Please try a different search term."
        ∈ display_artworks env term
    ∧ detailCallIds (display_artworks env term) = [] := by
  constructor
  · rw [display_artworks, if_pos h]
    simp
  · rw [detailCallIds_display, if_pos h]

/-- Witness for `empty_search_no_fetches` at a concrete world. -/
theorem empty_search_no_fetches_witness :
    Event.warn "No artworks found. Please try a different search term."
        ∈ display_artworks envEmpty "cat"
    ∧ detailCallIds (display_artworks envEmpty "cat") = [] :=
  empty_search_no_fetches envEmpty "cat" (by decide)

/-- Claim C6: a non-empty search result all of whose fetched records are
dropped (fetch absent, or no truthy image) produces the
`No artworks with images found.` warning and renders no artwork. -/
theorem all_without_images (env : Env) (term : String)
    (h1 : foundIds env term ≠ [])
    (h2 : ∀ id ∈ (foundIds env term).take 6,
        keepArtwork (get_artwork_details (env.detailResp id)).1 = none) :
    Event.warn "No artworks with images found." ∈ display_artworks env term
    ∧ renderedSet (display_artworks env term) = [] := by
  have hfl : (fetch_loop env ((foundIds env term).take 6).enum).2 = [] := by
    rw [fetch_loop_arts_enum]
    exact List.filterMap_eq_nil_iff.mpr h2
  constructor
  · rw [display_artworks, if_neg h1, if_pos hfl]
    simp
  · rw [renderedSet_display]
    exact List.filterMap_eq_nil_iff.mpr h2

/-- Witness for `all_without_images`: both fetched records lack images. -/
theorem all_without_images_witness :
    Event.warn "No artworks with images found."
        ∈ display_artworks envTwoBlank "cat"
    ∧ renderedSet (display_artworks envTwoBlank "cat") = [] :=
  all_without_images envTwoBlank "cat" (by decide) (by decide)

/-- Claim C7: for a non-empty search result the detail fetches are exactly
the first `min n 6` identifiers, in order; and the trace interleaves, for
each fetch in sequence, the fetch, a progress update, and the fixed
0.1-second pause. -/
theorem fetch_phase_shape (env : Env) (term : String)
    (h : foundIds env term ≠ []) :
    detailCallIds (display_artworks env term) = (foundIds env term).take 6
    ∧ (detailCallIds (display_artworks env term)).length
        = min (foundIds env term).length 6
    ∧ List.Sublist
        (((foundIds env term).take 6).enum.flatMap
          (fun p => [Event.detailCall p.2, Event.progress (p.1 + 1) 6,
            Event.sleepTenths 1]))
        (display_artworks env term) := by
  have hd : detailCallIds (display_artworks env term)
      = (foundIds env term).take 6 := by
    rw [detailCallIds_display, if_neg h]
  refine ⟨hd, ?_, ?_⟩
  · rw [hd, List.length_take]
    omega
  · rw [display_artworks, if_neg h]
    have hp := fetch_pattern_sublist env ((foundIds env term).take 6).enum
    have h2 := hp.trans (List.sublist_append_right
      [Event.info ("Found " ++ toString (foundIds env term).length
          ++ " artworks"),
       Event.progress 0 6]
      (fetch_loop env ((foundIds env term).take 6).enum).1)
    have h3 := h2.trans (List.sublist_append_left _
      (if (fetch_loop env ((foundIds env term).take 6).enum).2 = [] then
        [Event.warn "No artworks with images found."]
      else render_all (fetch_loop env ((foundIds env term).take 6).enum).2))
    exact h3.trans (List.sublist_append_right (searchPhase env term) _)

/-- Witness for `fetch_phase_shape` at a concrete world with two hits. -/
theorem fetch_phase_shape_witness :
    detailCallIds (display_artworks envTwoBlank "cat")
        = (foundIds envTwoBlank "cat").take 6
    ∧ (detailCallIds (display_artworks envTwoBlank "cat")).length
        = min (foundIds envTwoBlank "cat").length 6
    ∧ List.Sublist
        (((foundIds envTwoBlank "cat").take 6).enum.flatMap
          (fun p => [Event.detailCall p.2, Event.progress (p.1 + 1) 6,
            Event.sleepTenths 1]))
        (display_artworks envTwoBlank "cat") :=
  fetch_phase_shape envTwoBlank "cat" (by decide)

/-- Claim C8: two memoized calls with the same key inside one TTL window hit
the network at most once, and when the first call was the network call the
second is served from cache with the identical value — for the search cache
keyed by (query, limit) and the detail cache keyed by identifier. -/
theorem search_detail_memoized (c : Cache (String × Nat) (List Int))
    (d : Cache Int (Option Artwork)) (query : String) (limit : Nat)
    (id : Int) (resp : HttpResult SearchJson) (dresp : HttpResult Artwork)
    (t0 t1 : Nat) (h1 : t1 < t0 + TTL_SECONDS) :
    ((searchTwice c query limit resp t0 t1).1.2
        && (searchTwice c query limit resp t0 t1).2.2) = false
    ∧ ((searchTwice c query limit resp t0 t1).1.2 = true →
        (searchTwice c query limit resp t0 t1).2
          = ((searchTwice c query limit resp t0 t1).1.1, false))
    ∧ ((detailTwice d id dresp t0 t1).1.2
        && (detailTwice d id dresp t0 t1).2.2) = false
    ∧ ((detailTwice d id dresp t0 t1).1.2 = true →
        (detailTwice d id dresp t0 t1).2
          = ((detailTwice d id dresp t0 t1).1.1, false)) := by
  have hs := twoCalls_spec c (query, limit) t0 t1
    (search_met_artworks query limit resp).1 h1
  have hd := twoCalls_spec d id t0 t1 (get_artwork_details dresp).1 h1
  exact ⟨hs.1, hs.2, hd.1, hd.2⟩

/-- Witness for `search_detail_memoized`: empty caches, calls at times 0 and
10. -/
theorem search_detail_memoized_witness :
    ((searchTwice ⟨[]⟩ "cat" 20 (.response 200 ⟨some [1]⟩) 0 10).1.2
        && (searchTwice ⟨[]⟩ "cat" 20 (.response 200 ⟨some [1]⟩) 0 10).2.2)
        = false
    ∧ ((searchTwice ⟨[]⟩ "cat" 20 (.response 200 ⟨some [1]⟩) 0 10).1.2 = true →
        (searchTwice ⟨[]⟩ "cat" 20 (.response 200 ⟨some [1]⟩) 0 10).2
          = ((searchTwice ⟨[]⟩ "cat" 20
              (.response 200 ⟨some [1]⟩) 0 10).1.1, false))
    ∧ ((detailTwice ⟨[]⟩ 1 (.response 200 blankArtwork) 0 10).1.2
        && (detailTwice ⟨[]⟩ 1 (.response 200 blankArtwork) 0 10).2.2)
        = false
    ∧ ((detailTwice ⟨[]⟩ 1 (.response 200 blankArtwork) 0 10).1.2 = true →
        (detailTwice ⟨[]⟩ 1 (.response 200 blankArtwork) 0 10).2
          = ((detailTwice ⟨[]⟩ 1 (.response 200 blankArtwork) 0 10).1.1,
             false)) :=
  search_detail_memoized ⟨[]⟩ ⟨[]⟩ "cat" 20 1 (.response 200 ⟨some [1]⟩)
    (.response 200 blankArtwork) 0 10 (by decide)

/-- Claim C9: with no pending session term, no preset press and no submit
press, a non-empty free-text field is still selected and searched; a pending
preset/session term is selected once and deleted from session state; and the
idle state runs no search. -/
theorem free_text_and_preset_selection (env : Env) (s s2 : UIState)
    (t : String)
    (h1 : s.session_search_term = none) (h2 : s.flower_btn = false)
    (h3 : s.chinese_bird_btn = false) (h4 : s.custom_search_btn = false)
    (h5 : s.custom_search ≠ "")
    (h6 : s2.session_search_term = some t) (h7 : s2.flower_btn = false)
    (h8 : s2.chinese_bird_btn = false) :
    main_pass env s = (display_artworks env s.custom_search, none)
    ∧ main_pass env s2 = (display_artworks env t, none)
    ∧ main_pass env ⟨none, "", false, false, false⟩
        = (display_example_artworks, none) := by
  have hie : s.custom_search.isEmpty = false := by
    rcases hb : s.custom_search.isEmpty with _ | _
    · rfl
    · exact absurd ((String.isEmpty_iff s.custom_search).mp hb) h5
  have hsel : select_search_term s = (some s.custom_search, none) := by
    simp [select_search_term, h1, h2, h3, h4, hie]
  have hsel2 : select_search_term s2 = (some t, none) := by
    simp [select_search_term, h6, h7, h8]
  refine ⟨?_, ?_, rfl⟩
  · rw [main_pass, hsel]
  · rw [main_pass, hsel2]

/-- Witness for `free_text_and_preset_selection` at concrete widget
states. -/
theorem free_text_and_preset_selection_witness :
    main_pass envEmpty ⟨none, "portrait", false, false, false⟩
        = (display_artworks envEmpty
            (UIState.mk none "portrait" false false false).custom_search, none)
    ∧ main_pass envEmpty ⟨some "flower", "x", false, false, false⟩
        = (display_artworks envEmpty "flower", none)
    ∧ main_pass envEmpty ⟨none, "", false, false, false⟩
        = (display_example_artworks, none) :=
  free_text_and_preset_selection envEmpty
    ⟨none, "portrait", false, false, false⟩
    ⟨some "flower", "x", false, false, false⟩ "flower"
    rfl rfl rfl rfl (by decide) rfl rfl rfl

/-- Claim C10: every record the driver renders has a truthy `primaryImage`,
so the render-time `Image not available` fallback never fires. -/
theorem fallback_image_unreachable (env : Env) (term : String) :
    Event.info "🖼️ Image not available" ∉ display_artworks env term := by
  rw [display_artworks]
  intro hm
  rcases List.mem_append.mp hm with hm | hm
  · rw [searchPhase] at hm
    rcases List.mem_append.mp hm with hm | hm
    · simp at hm
    · rcases List.mem_map.mp hm with ⟨x, _, hx⟩
      cases hx
  · by_cases h : foundIds env term = []
    · rw [if_pos h] at hm
      simp at hm
    · rw [if_neg h] at hm
      rcases List.mem_append.mp hm with hm | hm
      · rcases List.mem_append.mp hm with hm | hm
        · rcases List.mem_cons.mp hm with hx | hx
          · injection hx with hs
            exact found_info_ne _ hs.symm
          · simp at hx
        · exact info_not_mem_fetch_loop env _ _ hm
      · split at hm
        · simp at hm
        · exact fallback_not_mem_render_all _
            (fun a ha => mem_fetch_arts_truthy env _ a ha) hm

/-- Witness for `fallback_image_unreachable` at a concrete world. -/
theorem fallback_image_unreachable_witness :
    Event.info "🖼️ Image not available" ∉ display_artworks envTwoBlank "cat" :=
  fallback_image_unreachable envTwoBlank "cat"

end Met
